import Mathlib

/-!
# Verification of the Hisaab Kitaab bookkeeping pages

Shallow embedding of the balance computation, date filtering, PDF report
export and script-aware font loading logic of the two ledger pages
(`Saudi.tsx`, `Special.tsx`) and the font utility (`pdfFonts.ts`).

JavaScript numbers are modelled as exact rationals (`ℚ`); the claims under
verification concern which formula each code path computes, not IEEE-754
rounding.  The display formatter `formatNumber` (defined outside the two
source files) is kept abstract by modelling each table cell as the raw
value handed to the formatter together with its unit suffix: two cells
built through the same formatter show the same string iff the shallow
`Cell` values agree on the formatted argument.
-/

/-- A Saudi ledger entry.  `riyalAmount` and `balance` are optional
precomputed server fields; the remaining fields are always present. -/
structure SaudiEntry where
  date : String
  refNo : String
  pkrAmount : ℚ
  riyalRate : ℚ
  riyalAmount : Option ℚ
  submittedSar : ℚ
  reference2 : String
  balance : Option ℚ
  deriving DecidableEq, Repr

/-- A Special ledger entry.  `balance` is an optional precomputed server
field. -/
structure SpecialEntry where
  userName : String
  date : String
  balanceType : String
  nameRupees : ℚ
  submittedRupees : ℚ
  referencePerson : String
  balance : Option ℚ
  deriving DecidableEq, Repr

/-- Derived riyal amount, as computed at each use site of
`(entry as any).riyalAmount !== undefined ? (entry as any).riyalAmount
: (entry.riyalRate > 0 ? entry.pkrAmount / entry.riyalRate : 0)`
(`Saudi.tsx` lines 122-126, 149-151, 405-407, 574-576). -/
def saudiRiyalAmount (e : SaudiEntry) : ℚ :=
  match e.riyalAmount with
  | some r => r
  | none => if e.riyalRate > 0 then e.pkrAmount / e.riyalRate else 0

/-- Balance of a Saudi PDF body row (`Saudi.tsx` lines 148-154 inside
`handleDownloadPDF`): stored balance when present, else the derived
riyal amount minus the submitted SAR. -/
def saudiBalancePDF (e : SaudiEntry) : ℚ :=
  match e.balance with
  | some b => b
  | none => saudiRiyalAmount e - e.submittedSar

/-- Balance rendered in the table's balance column (`Saudi.tsx` lines
420-431): stored balance when present, else stored-or-derived riyal
amount minus submitted SAR, transcribed from the column `render`. -/
def saudiBalanceTable (e : SaudiEntry) : ℚ :=
  match e.balance with
  | some b => b
  | none =>
    let riyalAmount : ℚ :=
      match e.riyalAmount with
      | some r => r
      | none => if e.riyalRate > 0 then e.pkrAmount / e.riyalRate else 0
    riyalAmount - e.submittedSar

/-- Restatement of claim C1's words: the stored balance when present;
when absent, `riyalAmount - submittedSar` where `riyalAmount` is the
stored value when present, else `pkrAmount / riyalRate` when
`riyalRate > 0`, else `0`. -/
def saudiBalanceSpec (e : SaudiEntry) : ℚ :=
  match e.balance with
  | some b => b
  | none =>
    (match e.riyalAmount with
     | some r => r
     | none => if e.riyalRate > 0 then e.pkrAmount / e.riyalRate else 0)
      - e.submittedSar

/-- A rendered table cell.  `num v suffix` stands for
`formatNumber(v) + suffix`; `fixed2 v` stands for `v.toFixed(2)`;
`text s` is a literal string cell. -/
inductive Cell where
  | text (s : String)
  | num (v : ℚ) (suffix : String)
  | fixed2 (v : ℚ)
  deriving DecidableEq, Repr

/-- One Saudi PDF body row (`Saudi.tsx` lines 148-166): date, ref-no
(with `'-'` for an empty one), PKR amount, derived riyal amount,
submitted SAR, secondary reference (with `'-'` fallback), balance and
the rate formatted via `toFixed(2)`. -/
def saudiRow (e : SaudiEntry) : List Cell :=
  [ .text e.date,
    .text (if e.refNo = "" then "-" else e.refNo),
    .num e.pkrAmount " PKR",
    .num (saudiRiyalAmount e) " SAR",
    .num e.submittedSar " SAR",
    .text (if e.reference2 = "" then "-" else e.reference2),
    .num (saudiBalancePDF e) " SAR",
    .fixed2 e.riyalRate ]

/-- The synthetic Saudi TOTALS row (`Saudi.tsx` lines 120-128, 169-178):
its balance cell holds `totalRiyal - totalSubmittedSAR` computed from the
aggregated sums, not the sum of the per-row balances. -/
def saudiTotalsRow (l : List SaudiEntry) : List Cell :=
  [ .text "",
    .text "TOTALS",
    .num (l.map (fun e => e.pkrAmount)).sum " PKR",
    .num (l.map saudiRiyalAmount).sum " SAR",
    .num (l.map (fun e => e.submittedSar)).sum " SAR",
    .text "",
    .num ((l.map saudiRiyalAmount).sum - (l.map (fun e => e.submittedSar)).sum) " SAR",
    .text "" ]

/-- Restatement of claim C2's words for the Saudi TOTALS row: every
numeric cell is the sum of that column's per-row values; in particular
the balance cell is the sum of the per-row balance values. -/
def saudiTotalsSpec (l : List SaudiEntry) : List Cell :=
  [ .text "",
    .text "TOTALS",
    .num (l.map (fun e => e.pkrAmount)).sum " PKR",
    .num (l.map saudiRiyalAmount).sum " SAR",
    .num (l.map (fun e => e.submittedSar)).sum " SAR",
    .text "",
    .num (l.map saudiBalancePDF).sum " SAR",
    .text "" ]

/-- Full Saudi table body: one row per entry in input order followed by
the single TOTALS row (`Saudi.tsx` lines 148-178). -/
def saudiTableData (l : List SaudiEntry) : List (List Cell) :=
  l.map saudiRow ++ [saudiTotalsRow l]

/-- Modelled from the spec: `calculateSpecialBalance` lives in
`@/data/dummyData`, which is not among the provided source files; per
spec §4.1, Special balance is `nameRupees - submittedRupees`. -/
def calculateSpecialBalance (nameRupees submittedRupees : ℚ) : ℚ :=
  nameRupees - submittedRupees

/-- Balance of a Special PDF body row (`Special.tsx` lines 128-131):
stored balance when present, else `nameRupees - submittedRupees`. -/
def specialBalancePDF (e : SpecialEntry) : ℚ :=
  match e.balance with
  | some b => b
  | none => e.nameRupees - e.submittedRupees

/-- Balance rendered in the Special table's balance column
(`Special.tsx` lines 366-371): stored balance when present, else
`calculateSpecialBalance`. -/
def specialBalanceTable (e : SpecialEntry) : ℚ :=
  match e.balance with
  | some b => b
  | none => calculateSpecialBalance e.nameRupees e.submittedRupees

/-- Restatement of claim C9's words: stored balance when present,
`nameRupees - submittedRupees` when absent. -/
def specialBalanceSpec (e : SpecialEntry) : ℚ :=
  match e.balance with
  | some b => b
  | none => e.nameRupees - e.submittedRupees

/-- One Special PDF body row (`Special.tsx` lines 128-142). -/
def specialRow (e : SpecialEntry) : List Cell :=
  [ .text (if e.userName = "" then "-" else e.userName),
    .text e.date,
    .text e.balanceType,
    .num e.nameRupees " PKR",
    .num e.submittedRupees " PKR",
    .text (if e.referencePerson = "" then "-" else e.referencePerson),
    .num (specialBalancePDF e) " PKR" ]

/-- The synthetic Special TOTALS row (`Special.tsx` lines 102-110,
145-153): its balance cell sums the per-row stored-or-derived balances. -/
def specialTotalsRow (l : List SpecialEntry) : List Cell :=
  [ .text "",
    .text "",
    .text "TOTALS",
    .num (l.map (fun e => e.nameRupees)).sum " PKR",
    .num (l.map (fun e => e.submittedRupees)).sum " PKR",
    .text "",
    .num (l.map specialBalancePDF).sum " PKR" ]

/-- Restatement of claim C2's words for the Special TOTALS row: every
numeric cell is the sum of that column's per-row values, the balance
cell being the sum of the per-row balance values. -/
def specialTotalsSpec (l : List SpecialEntry) : List Cell :=
  [ .text "",
    .text "",
    .text "TOTALS",
    .num (l.map (fun e => e.nameRupees)).sum " PKR",
    .num (l.map (fun e => e.submittedRupees)).sum " PKR",
    .text "",
    .num (l.map specialBalancePDF).sum " PKR" ]

/-- Full Special table body (`Special.tsx` lines 128-153). -/
def specialTableData (l : List SpecialEntry) : List (List Cell) :=
  l.map specialRow ++ [specialTotalsRow l]

/-- C1: For every Saudi entry, the derived balance used in the table's
balance column and in each PDF body row equals the stored balance when
present; when absent it equals `riyalAmount - submittedSar` with
`riyalAmount` the stored value when present, else `pkrAmount/riyalRate`
when `riyalRate > 0`, else `0`; in particular, with `riyalRate = 0` and
no stored fields the balance is `-submittedSar`. -/
theorem saudi_balance_dual_path (e : SaudiEntry) :
    saudiBalanceTable e = saudiBalanceSpec e ∧
    saudiBalancePDF e = saudiBalanceSpec e ∧
    (saudiRow e)[6]? = some (.num (saudiBalanceSpec e) " SAR") ∧
    (e.balance = none → e.riyalAmount = none → e.riyalRate = 0 →
      saudiBalanceTable e = -e.submittedSar) := by
  refine ⟨?_, ?_, ?_, ?_⟩
  · cases hb : e.balance <;>
      simp [saudiBalanceTable, saudiBalanceSpec, hb]
  · cases hb : e.balance <;>
      simp [saudiBalancePDF, saudiBalanceSpec, saudiRiyalAmount, hb]
  · cases hb : e.balance <;>
      simp [saudiRow, saudiBalancePDF, saudiBalanceSpec, saudiRiyalAmount, hb]
  · intro hb hr hz
    simp [saudiBalanceTable, hb, hr, hz]

/-- Witness for C1 at the spec's concrete scenario-style entry with no
stored fields and zero rate. -/
theorem saudi_balance_dual_path_witness :
    saudiBalanceTable
        { date := "2024-01-01", refNo := "SAU-001", pkrAmount := 500000,
          riyalRate := 0, riyalAmount := none, submittedSar := 6000,
          reference2 := "", balance := none } = -6000 := by
  have h := saudi_balance_dual_path
    { date := "2024-01-01", refNo := "SAU-001", pkrAmount := 500000,
      riyalRate := 0, riyalAmount := none, submittedSar := 6000,
      reference2 := "", balance := none }
  simpa using h.2.2.2 rfl rfl rfl

/-- C9: For every Special entry, the balance shown in the table's
balance column and in each PDF body row equals the stored balance when
present, and `nameRupees - submittedRupees` when absent. -/
theorem special_balance_dual_path (e : SpecialEntry) :
    specialBalanceTable e = specialBalanceSpec e ∧
    specialBalancePDF e = specialBalanceSpec e ∧
    (specialRow e)[6]? = some (.num (specialBalanceSpec e) " PKR") := by
  refine ⟨?_, ?_, ?_⟩
  · cases hb : e.balance <;>
      simp [specialBalanceTable, specialBalanceSpec, calculateSpecialBalance, hb]
  · cases hb : e.balance <;>
      simp [specialBalancePDF, specialBalanceSpec, hb]
  · cases hb : e.balance <;>
      simp [specialRow, specialBalancePDF, specialBalanceSpec, hb]


/-- Sample Saudi entry dated in January, used by concrete witnesses. -/
def sampleSaudiJan : SaudiEntry := ⟨"2024-01-05", "A", 1, 1, none, 0, "", none⟩

/-- Sample Saudi entry dated in February, used by concrete witnesses. -/
def sampleSaudiFeb : SaudiEntry := ⟨"2024-02-05", "B", 1, 1, none, 0, "", none⟩

/-- Sample Saudi entry with no stored fields, used by concrete
witnesses. -/
def sampleSaudiPlain : SaudiEntry := ⟨"2024-01-01", "S", 100, 2, none, 10, "", none⟩

/-- Sample Special entry from the spec's concrete scenario. -/
def sampleSpecial : SpecialEntry :=
  ⟨"Ahmed Khan", "2024-01-01", "Online", 150000, 120000, "", none⟩

/-- Auxiliary for C2: when no row carries a stored balance, the sum of
the per-row balances telescopes into total riyal minus total submitted
SAR. -/
theorem saudi_balance_sum_of_no_stored (l : List SaudiEntry)
    (h : ∀ e ∈ l, e.balance = none) :
    (l.map saudiBalancePDF).sum =
      (l.map saudiRiyalAmount).sum - (l.map (fun e => e.submittedSar)).sum := by
  induction l with
  | nil => simp
  | cons a t ih =>
    have ha : a.balance = none := h a (by simp)
    have ht := ih (fun e he => h e (by simp [he]))
    simp only [List.map_cons, List.sum_cons, ht, saudiBalancePDF, ha]
    ring

/-- C2 counterexample entry: its stored balance (100) differs from its
derived `riyalAmount - submittedSar` (50). -/
def saudiStoredMismatch : SaudiEntry :=
  ⟨"2024-01-01", "SAU-001", 0, 0, some 50, 0, "", some 100⟩

/-- C2 is false as stated: for the Saudi export of
`[saudiStoredMismatch]` the TOTALS balance cell holds
`totalRiyal - totalSubmittedSAR = 50`, while the sum of the per-row
balance values shown above it is `100`, so the TOTALS row differs from
the column-sums row demanded by the claim. -/
theorem saudi_totals_not_row_sums :
    (saudiTotalsRow [saudiStoredMismatch])[6]? = some (.num 50 " SAR") ∧
    (saudiTotalsSpec [saudiStoredMismatch])[6]? = some (.num 100 " SAR") ∧
    saudiTotalsRow [saudiStoredMismatch] ≠ saudiTotalsSpec [saudiStoredMismatch] := by
  have h1 : (saudiTotalsRow [saudiStoredMismatch])[6]? = some (.num 50 " SAR") := by
    simp [saudiTotalsRow, saudiStoredMismatch, saudiRiyalAmount]
  have h2 : (saudiTotalsSpec [saudiStoredMismatch])[6]? = some (.num 100 " SAR") := by
    simp [saudiTotalsSpec, saudiStoredMismatch, saudiBalancePDF]
  refine ⟨h1, h2, fun h => ?_⟩
  rw [h, h2] at h1
  simp only [Option.some.injEq, Cell.num.injEq] at h1
  exact absurd h1.1 (by norm_num)

/-- C2 amended: the Special TOTALS row always equals the column sums of
the per-row values (balance included); the Saudi TOTALS row agrees with
the column sums on every cell except balance, whose cell is the
aggregate `totalRiyal - totalSubmittedSAR` and coincides with the sum of
the per-row balances exactly when no row carries a stored balance. -/
theorem totals_row_column_sums (l : List SaudiEntry) (m : List SpecialEntry) :
    specialTotalsRow m = specialTotalsSpec m ∧
    (saudiTotalsRow l).take 6 = (saudiTotalsSpec l).take 6 ∧
    (saudiTotalsRow l)[6]? =
      some (.num ((l.map saudiRiyalAmount).sum
        - (l.map (fun e => e.submittedSar)).sum) " SAR") ∧
    ((∀ e ∈ l, e.balance = none) → saudiTotalsRow l = saudiTotalsSpec l) := by
  refine ⟨rfl, rfl, rfl, fun h => ?_⟩
  simp [saudiTotalsRow, saudiTotalsSpec, saudi_balance_sum_of_no_stored l h]

/-- Witness for C2's amended claim on concrete one-entry lists with no
stored balances. -/
theorem totals_row_column_sums_witness :
    specialTotalsRow [sampleSpecial] = specialTotalsSpec [sampleSpecial] ∧
    saudiTotalsRow [sampleSaudiPlain] = saudiTotalsSpec [sampleSaudiPlain] := by
  have h := totals_row_column_sums [sampleSaudiPlain] [sampleSpecial]
  exact ⟨h.1, h.2.2.2 (by intro e he; simp at he; simp [he, sampleSaudiPlain])⟩

/-- The page's date-filter state: two date strings, the empty string
standing for an unset bound. -/
structure DateFilter where
  fromDate : String
  toDate : String
  deriving DecidableEq, Repr

/-- Per-entry predicate of the filter callback (`Saudi.tsx` lines 77-82,
`Special.tsx` lines 73-78): reject when a set lower bound exceeds the
entry date or a set upper bound is below it. -/
def entryPassesFilter (f : DateFilter) (entryDate : String) : Bool :=
  if f.fromDate ≠ "" ∧ entryDate < f.fromDate then false
  else if f.toDate ≠ "" ∧ entryDate > f.toDate then false
  else true

/-- `handleFilter` (`Saudi.tsx` lines 71-85, `Special.tsx` lines 67-81):
with both bounds empty the full list is installed unchanged, otherwise
the list is filtered by `entryPassesFilter`. -/
def handleFilter (f : DateFilter) (dateOf : α → String) (entries : List α) :
    List α :=
  if f.fromDate = "" ∧ f.toDate = "" then entries
  else entries.filter (fun e => entryPassesFilter f (dateOf e))

/-- `handleClearFilter` (`Saudi.tsx` lines 88-91, `Special.tsx` lines
84-87): resets the filter state and reinstalls the fetched list. -/
def handleClearFilter (entries : List α) : DateFilter × List α :=
  (⟨"", ""⟩, entries)

/-- The filter predicate passes a date iff each set bound is satisfied
inclusively. -/
theorem entryPassesFilter_iff (f : DateFilter) (d : String) :
    entryPassesFilter f d = true ↔
      (f.fromDate = "" ∨ f.fromDate ≤ d) ∧ (f.toDate = "" ∨ d ≤ f.toDate) := by
  unfold entryPassesFilter
  by_cases h1 : f.fromDate ≠ "" ∧ d < f.fromDate
  · rw [if_pos h1]
    constructor
    · intro h; exact absurd h (by simp)
    · rintro ⟨hc, -⟩
      rcases hc with hc | hc
      · exact absurd hc h1.1
      · exact absurd h1.2 (not_lt.mpr hc)
  · rw [if_neg h1]
    by_cases h2 : f.toDate ≠ "" ∧ d > f.toDate
    · rw [if_pos h2]
      constructor
      · intro h; exact absurd h (by simp)
      · rintro ⟨-, hc⟩
        rcases hc with hc | hc
        · exact absurd hc h2.1
        · exact absurd h2.2 (not_lt.mpr hc)
    · rw [if_neg h2]
      push_neg at h1 h2
      refine ⟨fun _ => ⟨?_, ?_⟩, fun _ => rfl⟩
      · by_cases he : f.fromDate = ""
        · exact Or.inl he
        · exact Or.inr (not_lt.mp (h1 he))
      · by_cases he : f.toDate = ""
        · exact Or.inl he
        · exact Or.inr (not_lt.mp (h2 he))

/-- C6: an entry is in the filtered view iff it is in the fetched list
and `fromDate ≤ date ≤ toDate` with a missing bound unconstrained;
filtering with both bounds empty, like clearing, returns the fetched
list itself (same membership and order). -/
theorem date_filter_spec (f : DateFilter) (entries : List SaudiEntry)
    (e : SaudiEntry) :
    (e ∈ handleFilter f SaudiEntry.date entries ↔
      e ∈ entries ∧ (f.fromDate = "" ∨ f.fromDate ≤ e.date) ∧
        (f.toDate = "" ∨ e.date ≤ f.toDate)) ∧
    handleFilter ⟨"", ""⟩ SaudiEntry.date entries = entries ∧
    (handleClearFilter entries).2 = entries := by
  refine ⟨?_, by simp [handleFilter], rfl⟩
  by_cases hf : f.fromDate = "" ∧ f.toDate = ""
  · rw [handleFilter, if_pos hf]
    simp [hf.1, hf.2]
  · rw [handleFilter, if_neg hf, List.mem_filter, entryPassesFilter_iff]

/-- Witness for C6: with only a lower bound set, the February entry is
kept; the empty filter returns the fetched list unchanged. -/
theorem date_filter_spec_witness :
    sampleSaudiFeb ∈
      handleFilter ⟨"2024-02-01", ""⟩ SaudiEntry.date
        [sampleSaudiJan, sampleSaudiFeb] ∧
    handleFilter ⟨"", ""⟩ SaudiEntry.date [sampleSaudiJan] = [sampleSaudiJan] := by
  constructor
  · refine ((date_filter_spec ⟨"2024-02-01", ""⟩ [sampleSaudiJan, sampleSaudiFeb]
      sampleSaudiFeb).1).mpr ⟨by simp, Or.inr ?_, Or.inl rfl⟩
    show ("2024-02-01" : String) ≤ sampleSaudiFeb.date
    rw [show sampleSaudiFeb.date = "2024-02-05" from rfl, String.le_iff_toList_le]
    decide
  · exact (date_filter_spec ⟨"", ""⟩ [sampleSaudiJan] sampleSaudiJan).2.1

/-- Effective export dataset (`Saudi.tsx` line 96, `Special.tsx` line
92): the filtered list when non-empty, else the full list. -/
def effectiveData (filtered entries : List α) : List α :=
  if filtered.length > 0 then filtered else entries

/-- Date-range line of the report header (`Saudi.tsx` lines 140-143,
`Special.tsx` lines 120-123): the from-to range only when both bounds
are set, else the literal `All Entries`. -/
def dateRangeText (f : DateFilter) : String :=
  if f.fromDate ≠ "" ∧ f.toDate ≠ "" then f.fromDate ++ " to " ++ f.toDate
  else "All Entries"

/-- Saudi export filename (`Saudi.tsx` line 269), `||`-fallback of each
unset bound to the literal `all`. -/
def saudiFileName (f : DateFilter) (today : String) : String :=
  "Saudi_Hisaab_Kitaab_" ++ (if f.fromDate = "" then "all" else f.fromDate) ++
    "_" ++ (if f.toDate = "" then "all" else f.toDate) ++ "_" ++ today ++ ".pdf"

/-- Special export filename (`Special.tsx` line 211). -/
def specialFileName (f : DateFilter) (today : String) : String :=
  "Special_Hisaab_Kitaab_" ++ (if f.fromDate = "" then "all" else f.fromDate) ++
    "_" ++ (if f.toDate = "" then "all" else f.toDate) ++ "_" ++ today ++ ".pdf"

/-- Restatement of the spec's filename pattern
`<ReportKind>_Hisaab_Kitaab_<from|all>_<to|all>_<isoDate>.pdf`. -/
def specFileName (kind : String) (f : DateFilter) (today : String) : String :=
  kind ++ "_Hisaab_Kitaab_" ++ (if f.fromDate = "" then "all" else f.fromDate) ++
    "_" ++ (if f.toDate = "" then "all" else f.toDate) ++ "_" ++ today ++ ".pdf"

/-- Outcome of one export run: the no-data notice with no file produced,
or a saved document carrying its filename, header date-range line and
table body. -/
inductive ExportResult where
  | noData
  | saved (fileName dateRange : String) (table : List (List Cell))
  deriving DecidableEq, Repr

/-- Saudi `handleDownloadPDF` (`Saudi.tsx` lines 94-277): abort with the
no-data notice when the effective dataset is empty, otherwise build and
save the document. -/
def saudiHandleDownloadPDF (filtered entries : List SaudiEntry)
    (f : DateFilter) (today : String) : ExportResult :=
  let dataToExport := effectiveData filtered entries
  if dataToExport.length = 0 then .noData
  else .saved (saudiFileName f today) (dateRangeText f) (saudiTableData dataToExport)

/-- Special `handleDownloadPDF` (`Special.tsx` lines 90-219). -/
def specialHandleDownloadPDF (filtered entries : List SpecialEntry)
    (f : DateFilter) (today : String) : ExportResult :=
  let dataToExport := effectiveData filtered entries
  if dataToExport.length = 0 then .noData
  else .saved (specialFileName f today) (dateRangeText f)
    (specialTableData dataToExport)

/-- C7: with an empty effective dataset, both export routines return the
no-data notice and construct no document. -/
theorem export_empty_no_file (fs es : List SaudiEntry)
    (fp ep : List SpecialEntry) (f g : DateFilter) (today : String)
    (hs : effectiveData fs es = []) (hp : effectiveData fp ep = []) :
    saudiHandleDownloadPDF fs es f today = .noData ∧
    specialHandleDownloadPDF fp ep g today = .noData := by
  constructor
  · simp [saudiHandleDownloadPDF, hs]
  · simp [specialHandleDownloadPDF, hp]

/-- Witness for C7: both lists empty. -/
theorem export_empty_no_file_witness :
    saudiHandleDownloadPDF [] [] ⟨"", ""⟩ "2024-02-01" = .noData ∧
    specialHandleDownloadPDF [] [] ⟨"", ""⟩ "2024-02-01" = .noData :=
  export_empty_no_file [] [] [] [] ⟨"", ""⟩ ⟨"", ""⟩ "2024-02-01" rfl rfl

/-- C8: whenever a file is produced, its name follows the spec pattern
`<ReportKind>_Hisaab_Kitaab_<from|all>_<to|all>_<today>.pdf`, a pure
function of the filter state and current day. -/
theorem export_filename_spec (fs es : List SaudiEntry) (f : DateFilter)
    (today : String) (h : effectiveData fs es ≠ []) :
    saudiHandleDownloadPDF fs es f today =
      .saved (specFileName "Saudi" f today) (dateRangeText f)
        (saudiTableData (effectiveData fs es)) ∧
    saudiFileName f today = specFileName "Saudi" f today ∧
    specialFileName f today = specFileName "Special" f today := by
  refine ⟨?_, rfl, rfl⟩
  rw [saudiHandleDownloadPDF]
  simp only [List.length_eq_zero, h, if_false, if_neg h]
  rfl

/-- Witness for C8, the spec's filename scenario: filtering January 2024
and exporting on 2024-02-01 yields
`Saudi_Hisaab_Kitaab_2024-01-01_2024-01-31_2024-02-01.pdf`. -/
theorem export_filename_spec_witness :
    saudiHandleDownloadPDF [sampleSaudiJan] [] ⟨"2024-01-01", "2024-01-31"⟩
        "2024-02-01" =
      .saved "Saudi_Hisaab_Kitaab_2024-01-01_2024-01-31_2024-02-01.pdf"
        "2024-01-01 to 2024-01-31" (saudiTableData [sampleSaudiJan]) := by
  have h := export_filename_spec [sampleSaudiJan] [] ⟨"2024-01-01", "2024-01-31"⟩
    "2024-02-01" (by simp [effectiveData])
  rw [h.1]
  rfl

/-- C10: when exactly one date bound is set, the export header's date
range line reads `All Entries` in both routines, even though the body
rows are built from the (filtered) effective dataset. -/
theorem header_all_entries_one_bound (f : DateFilter) (fs es : List SaudiEntry)
    (fp ep : List SpecialEntry) (today : String)
    (h : (f.fromDate = "" ∧ f.toDate ≠ "") ∨ (f.fromDate ≠ "" ∧ f.toDate = ""))
    (hs : effectiveData fs es ≠ []) (hp : effectiveData fp ep ≠ []) :
    dateRangeText f = "All Entries" ∧
    saudiHandleDownloadPDF fs es f today =
      .saved (saudiFileName f today) "All Entries"
        (saudiTableData (effectiveData fs es)) ∧
    specialHandleDownloadPDF fp ep f today =
      .saved (specialFileName f today) "All Entries"
        (specialTableData (effectiveData fp ep)) := by
  have hdr : dateRangeText f = "All Entries" := by
    rcases h with ⟨h1, h2⟩ | ⟨h1, h2⟩ <;> simp [dateRangeText, h1, h2]
  refine ⟨hdr, ?_, ?_⟩
  · rw [saudiHandleDownloadPDF]
    simp [List.length_eq_zero, hs, hdr]
  · rw [specialHandleDownloadPDF]
    simp [List.length_eq_zero, hp, hdr]

/-- Witness for C10: only the lower bound `2024-02-01` is set; the
filtered view holds one of the two entries, yet the header says
`All Entries`. -/
theorem header_all_entries_one_bound_witness :
    dateRangeText ⟨"2024-02-01", ""⟩ = "All Entries" ∧
    saudiHandleDownloadPDF [sampleSaudiFeb] [sampleSaudiJan, sampleSaudiFeb]
        ⟨"2024-02-01", ""⟩ "2024-02-10" =
      .saved (saudiFileName ⟨"2024-02-01", ""⟩ "2024-02-10") "All Entries"
        (saudiTableData [sampleSaudiFeb]) := by
  have h := header_all_entries_one_bound ⟨"2024-02-01", ""⟩ [sampleSaudiFeb]
    [sampleSaudiJan, sampleSaudiFeb] [sampleSpecial] [] "2024-02-10"
    (Or.inr ⟨by decide, rfl⟩) (by simp [effectiveData]) (by simp [effectiveData])
  exact ⟨h.1, h.2.1⟩

/-- Outcome of one `fetch` of a font URL: a thrown network error, or a
response carrying its `ok` flag and body bytes. -/
inductive FetchOutcome where
  | throwErr
  | resp (ok : Bool) (dat : List Nat)
  deriving DecidableEq, Repr

/-- The two font sources one load attempt may contact. -/
structure FontEnv where
  primary : FetchOutcome
  alt : FetchOutcome
  deriving DecidableEq, Repr

/-- Observable outcome of the async body of `loadUrduFont`. -/
structure LoadAttempt where
  loaded : Bool
  altFetched : Bool
  resolved : Bool
  fontData : Option (List Nat)
  deriving DecidableEq, Repr

/-- Whether a fetch outcome delivers a successful (ok) response. -/
def fetchSucceeds : FetchOutcome → Bool
  | .resp true _ => true
  | _ => false

/-- The async body of `loadUrduFont` (`pdfFonts.ts` lines 775-830).
The primary URL is fetched inside a try whose catch fetches the
alternate URL once; a primary response that is not ok leaves `fontData`
null WITHOUT entering that catch, and the null check after the try
throws into the outer catch, which swallows every failure and leaves
`loaded = false`; the promise always resolves. -/
def runFontLoad (env : FontEnv) : LoadAttempt :=
  let inner : Option (List Nat) × Bool × Bool :=
    match env.primary with
    | .resp true d => (some d, false, false)
    | .resp false _ => (none, false, false)
    | .throwErr =>
      match env.alt with
      | .resp true d => (some d, true, false)
      | .resp false _ => (none, true, false)
      | .throwErr => (none, true, true)
  match inner with
  | (_, altFetched, true) =>
    { loaded := false, altFetched := altFetched, resolved := true,
      fontData := none }
  | (none, altFetched, false) =>
    { loaded := false, altFetched := altFetched, resolved := true,
      fontData := none }
  | (some d, altFetched, false) =>
    { loaded := true, altFetched := altFetched, resolved := true,
      fontData := some d }

/-- C3 is false as stated: when the primary fetch resolves with a
non-success (non-ok) response — a failure by the claim's definition —
no fetch of the alternate source is attempted (the alternate runs only
from the catch of a thrown primary error), and the load simply fails. -/
theorem primary_not_ok_skips_alternate :
    fetchSucceeds (FetchOutcome.resp false []) = false ∧
    (runFontLoad ⟨.resp false [], .resp true [1]⟩).altFetched = false ∧
    (runFontLoad ⟨.resp false [], .resp true [1]⟩).loaded = false :=
  ⟨rfl, rfl, rfl⟩

/-- C3 amended: the alternate source is fetched exactly when the primary
fetch throws; a non-ok primary response fails the load with no alternate
attempt; the returned promise always resolves without throwing, and when
no contacted source delivers an ok response the loader ends not loaded. -/
theorem font_load_fallback (env : FontEnv) :
    ((runFontLoad env).altFetched = true ↔ env.primary = .throwErr) ∧
    (runFontLoad env).resolved = true ∧
    (fetchSucceeds env.primary = false → fetchSucceeds env.alt = false →
      (runFontLoad env).loaded = false) := by
  obtain ⟨p, a⟩ := env
  rcases p with _ | ⟨_ | _, d⟩ <;> rcases a with _ | ⟨_ | _, d2⟩ <;>
    exact ⟨by simp [runFontLoad], rfl, by simp [runFontLoad, fetchSucceeds]⟩

/-- Witness for C3's amended claim: both sources throw; the alternate
was tried, the promise resolved, the loader is not loaded. -/
theorem font_load_fallback_witness :
    ((runFontLoad ⟨.throwErr, .throwErr⟩).altFetched = true ↔
      (FetchOutcome.throwErr : FetchOutcome) = .throwErr) ∧
    (runFontLoad ⟨.throwErr, .throwErr⟩).resolved = true ∧
    (runFontLoad ⟨.throwErr, .throwErr⟩).loaded = false := by
  have h := font_load_fallback ⟨.throwErr, .throwErr⟩
  exact ⟨h.1, h.2.1, h.2.2 rfl rfl⟩

/-- The module-level font cache (`pdfFonts.ts` line 759): the loaded
flag and the memoised in-flight promise, identified here by a token. -/
structure FontCache where
  loaded : Bool
  promise : Option Nat
  deriving DecidableEq, Repr

/-- The initial cache state `{ loaded: false }`. -/
def initialFontCache : FontCache := ⟨false, none⟩

/-- Result of one `loadUrduFont` call against the cache. -/
structure FontCallResult where
  cache : FontCache
  returnedPromise : Nat
  initiatedFetch : Bool
  deriving DecidableEq, Repr

/-- One `loadUrduFont` call (`pdfFonts.ts` lines 765-832): return the
cached promise when present; else, when already loaded, a fresh resolved
promise; else install and return a new in-flight promise (`fresh` is the
identity the runtime gives a newly allocated promise). -/
def loadUrduFontCall (c : FontCache) (fresh : Nat) : FontCallResult :=
  match c.promise with
  | some p => ⟨c, p, false⟩
  | none =>
    if c.loaded then ⟨c, fresh, false⟩
    else ⟨⟨c.loaded, some fresh⟩, fresh, true⟩

/-- Completion of the in-flight load (`pdfFonts.ts` lines 822 and 828):
sets the loaded flag; the cached promise is never cleared. -/
def fontLoadComplete (c : FontCache) (success : Bool) : FontCache :=
  ⟨success, c.promise⟩

/-- An event in the life of the font cache: a `loadUrduFont` call, or
the completion (successful or not) of the in-flight load. -/
inductive FontEvent where
  | call
  | complete (success : Bool)
  deriving DecidableEq, Repr

/-- Run a sequence of cache events, threading a fresh promise-id
counter; returns the final cache and, per call, the returned promise id
and whether that call initiated a fetch sequence. -/
def runFontEvents : FontCache → Nat → List FontEvent → FontCache × List (Nat × Bool)
  | c, _, [] => (c, [])
  | c, fresh, .call :: rest =>
    let r := loadUrduFontCall c fresh
    let k := runFontEvents r.cache (fresh + 1) rest
    (k.1, (r.returnedPromise, r.initiatedFetch) :: k.2)
  | c, fresh, .complete s :: rest => runFontEvents (fontLoadComplete c s) fresh rest

/-- Once the promise is cached it is never cleared: under any further
calls and completions the cache keeps it and every call returns it
without initiating a fetch. -/
theorem runFontEvents_cached (events : List FontEvent) :
    ∀ (c : FontCache) (p fresh : Nat), c.promise = some p →
      (runFontEvents c fresh events).1.promise = some p ∧
      ∀ r ∈ (runFontEvents c fresh events).2, r = (p, false) := by
  induction events with
  | nil =>
    intro c p fresh hc
    exact ⟨by simpa [runFontEvents] using hc, by simp [runFontEvents]⟩
  | cons ev rest ih =>
    intro c p fresh hc
    cases ev with
    | call =>
      have hcall : loadUrduFontCall c fresh = ⟨c, p, false⟩ := by
        simp [loadUrduFontCall, hc]
      obtain ⟨h1, h2⟩ := ih c p (fresh + 1) hc
      refine ⟨?_, ?_⟩
      · simpa [runFontEvents, hcall] using h1
      · intro r hr
        simp only [runFontEvents, hcall, List.mem_cons] at hr
        rcases hr with hr | hr
        · exact hr
        · exact h2 r hr
    | complete s =>
      have := ih ⟨s, c.promise⟩ p fresh (by simpa using hc)
      simpa [runFontEvents, fontLoadComplete] using this

/-- C4: from the initial cache state, in any event sequence whose first
event is a call (a completion can only follow the call that created the
in-flight promise), at most one fetch sequence is ever initiated, every
call returns the promise installed by the first call (id 0), and that
promise is never cleared from the cache — so a failed load (a
`complete false` anywhere in the sequence) is never retried. -/
theorem font_cache_single_fetch (events : List FontEvent)
    (h : events = [] ∨ ∃ rest, events = .call :: rest) :
    ((runFontEvents initialFontCache 0 events).2.filter (fun r => r.2)).length ≤ 1 ∧
    (∀ r ∈ (runFontEvents initialFontCache 0 events).2, r.1 = 0) ∧
    (events ≠ [] → (runFontEvents initialFontCache 0 events).1.promise = some 0) := by
  rcases h with rfl | ⟨rest, rfl⟩
  · refine ⟨by simp [runFontEvents], by simp [runFontEvents], fun hne => absurd rfl hne⟩
  · have hcall : loadUrduFontCall initialFontCache 0 = ⟨⟨false, some 0⟩, 0, true⟩ := rfl
    obtain ⟨h1, h2⟩ := runFontEvents_cached rest ⟨false, some 0⟩ 0 1 rfl
    have hfil : (runFontEvents ⟨false, some 0⟩ 1 rest).2.filter (fun r => r.2) = [] := by
      rw [List.filter_eq_nil_iff]
      intro a ha
      rw [h2 a ha]
      simp
    refine ⟨?_, ?_, fun _ => ?_⟩
    · simp [runFontEvents, hcall, hfil]
    · intro r hr
      simp only [runFontEvents, hcall, List.mem_cons] at hr
      rcases hr with hr | hr
      · rw [hr]
      · rw [h2 r hr]
    · simpa [runFontEvents, hcall] using h1

/-- Witness for C4: call, failed completion, second call — one fetch in
total, both calls return promise 0, the promise is still cached. -/
theorem font_cache_single_fetch_witness :
    ((runFontEvents initialFontCache 0
        [.call, .complete false, .call]).2.filter (fun r => r.2)).length ≤ 1 ∧
    (∀ r ∈ (runFontEvents initialFontCache 0
        [.call, .complete false, .call]).2, r.1 = 0) ∧
    (runFontEvents initialFontCache 0
        [.call, .complete false, .call]).1.promise = some 0 := by
  have h := font_cache_single_fetch [.call, .complete false, .call]
    (Or.inr ⟨[.complete false, .call], rfl⟩)
  exact ⟨h.1, h.2.1, h.2.2 (by simp)⟩

/-- Character class of the `containsUrdu` regex (`pdfFonts.ts` line
865): the Arabic/Urdu Unicode block ranges. -/
def isUrduChar (c : Char) : Bool :=
  decide ((0x0600 ≤ c.toNat ∧ c.toNat ≤ 0x06FF) ∨
    (0x0750 ≤ c.toNat ∧ c.toNat ≤ 0x077F) ∨
    (0x08A0 ≤ c.toNat ∧ c.toNat ≤ 0x08FF) ∨
    (0xFB50 ≤ c.toNat ∧ c.toNat ≤ 0xFDFF) ∨
    (0xFE70 ≤ c.toNat ∧ c.toNat ≤ 0xFEFF))

/-- `containsUrdu(text)` (`pdfFonts.ts` lines 862-867): false for the
empty string, else true iff some character is in the Urdu ranges. -/
def containsUrdu (text : String) : Bool :=
  if text = "" then false else text.toList.any isUrduChar

/-- The two font names a Saudi export cell can carry. -/
inductive PdfFont where
  | helvetica
  | notoSansArabic
  deriving DecidableEq, Repr

/-- Numeric Saudi export columns (`Saudi.tsx` line 235). -/
def isNumericColumn (col : Nat) : Bool :=
  col == 2 || col == 3 || col == 4 || col == 6 || col == 7

/-- RTL-flagged Saudi export columns by position (`Saudi.tsx` line 234). -/
def isUrduColumn (col : Nat) : Bool :=
  col == 0 || col == 5

/-- Static per-column font from `columnStyles` (`Saudi.tsx` lines
206-215): NotoSansArabic for columns 0 and 5, helvetica otherwise. -/
def saudiColumnStyleFont (col : Nat) : PdfFont :=
  if col == 0 || col == 5 then .notoSansArabic else .helvetica

/-- The `didParseCell` hook (`Saudi.tsx` lines 226-243) as a function of
the font-availability flag, column index, cell text and the cell's
preassigned font: helvetica for numeric or plain-English cells; the Urdu
font when available and needed; in the remaining case the hook assigns
nothing, so the preassigned font stands. -/
def didParseCellFont (hasUrduFont : Bool) (col : Nat) (cellText : String)
    (preset : PdfFont) : PdfFont :=
  if isNumericColumn col || (!containsUrdu cellText && !isUrduColumn col) then
    .helvetica
  else if hasUrduFont && (containsUrdu cellText || isUrduColumn col) then
    .notoSansArabic
  else preset

/-- Final font of a Saudi export cell: the `didParseCell` decision on
top of the column's static style. -/
def saudiCellFont (hasUrduFont : Bool) (col : Nat) (cellText : String) : PdfFont :=
  didParseCellFont hasUrduFont col cellText (saudiColumnStyleFont col)

/-- Restatement of claim C5's decision procedure: numeric columns use
helvetica; else the RTL font when registered and (Urdu text or RTL
column); otherwise fall back to helvetica. -/
def specCellFont (hasUrduFont : Bool) (col : Nat) (cellText : String) : PdfFont :=
  if isNumericColumn col then .helvetica
  else if hasUrduFont && (containsUrdu cellText || isUrduColumn col) then
    .notoSansArabic
  else .helvetica

/-- C5 is false as stated: in column 0 (an RTL-flagged column) holding
the plain text `2024-01-01` with the RTL font NOT registered, the code
keeps the preassigned `NotoSansArabic` column style, while the claim
demands a fallback to the default helvetica. -/
theorem rtl_column_no_font_keeps_preset :
    saudiCellFont false 0 "2024-01-01" = PdfFont.notoSansArabic ∧
    specCellFont false 0 "2024-01-01" = PdfFont.helvetica := by
  constructor <;> rfl

/-- C5 amended: numeric columns always get helvetica; a non-numeric cell
with neither Urdu text nor an RTL column flag gets helvetica; with the
RTL font registered, a non-numeric cell needing it gets the RTL font;
but when the font is NOT registered and the cell needs it, the cell
keeps its preassigned column-style font (NotoSansArabic for columns 0
and 5) rather than falling back to helvetica. -/
theorem cell_font_dispatch (hasUrduFont : Bool) (col : Nat) (text : String) :
    (isNumericColumn col = true →
      saudiCellFont hasUrduFont col text = .helvetica) ∧
    (isNumericColumn col = false → containsUrdu text = false →
      isUrduColumn col = false →
      saudiCellFont hasUrduFont col text = .helvetica) ∧
    (isNumericColumn col = false → hasUrduFont = true →
      (containsUrdu text = true ∨ isUrduColumn col = true) →
      saudiCellFont hasUrduFont col text = .notoSansArabic) ∧
    (isNumericColumn col = false → hasUrduFont = false →
      (containsUrdu text = true ∨ isUrduColumn col = true) →
      saudiCellFont hasUrduFont col text = saudiColumnStyleFont col) := by
  refine ⟨fun h1 => ?_, fun h1 h2 h3 => ?_, fun h1 h2 h3 => ?_, fun h1 h2 h3 => ?_⟩
  · simp [saudiCellFont, didParseCellFont, h1]
  · simp [saudiCellFont, didParseCellFont, h1, h2, h3]
  · rcases h3 with h3 | h3 <;>
      simp [saudiCellFont, didParseCellFont, h1, h2, h3]
  · rcases h3 with h3 | h3 <;>
      simp [saudiCellFont, didParseCellFont, h1, h2, h3]

/-- Witness for C5's amended claim: with the RTL font registered, the
RTL-flagged column 5 gets the RTL font and the numeric column 2 gets
helvetica. -/
theorem cell_font_dispatch_witness :
    saudiCellFont true 5 "Reference" = PdfFont.notoSansArabic ∧
    saudiCellFont true 2 "1,234 PKR" = PdfFont.helvetica := by
  have h5 := cell_font_dispatch true 5 "Reference"
  have h2 := cell_font_dispatch true 2 "1,234 PKR"
  exact ⟨h5.2.2.1 rfl rfl (Or.inr rfl), h2.1 rfl⟩
